import Mathlib

/-!
Verification development for the note-publishing automation
(`src/note_publisher.py`, `src/article_generator.py`).

The Python code is shallowly embedded:

* `_clean_content_for_note` (the content sanitizer) becomes
  `clean_content_for_note`, a pure function on strings; each of its regex
  substitutions becomes one executable scanning pass that reproduces
  `re.sub` semantics (left-to-right non-overlapping matching, scanning
  resuming after each match, replacement text never rescanned).
* the browser-driving methods (`publish`, `_login`,
  `_create_and_publish`, `_input_tags`, `_select_paid_line_position`)
  become trace-producing functions over an `Env` record that models what
  the page offers (which controls are visible, where the split-point
  buttons and the paid marker sit, which screenshot writes fail).
  An exception propagating out of a method is modelled by `Except`.
-/

namespace NoteAuto

/-! ## Character-level helpers (Python `str` operations) -/

/-- The whitespace characters of Python `str.strip` (ASCII range). -/
def isPySpace (c : Char) : Bool :=
  c == ' ' || c == '\t' || c == '\n' || c == '\r' || c == '\x0B' || c == '\x0C'

/-- Python `str.lstrip()`. -/
def pyLStrip (l : List Char) : List Char := l.dropWhile isPySpace

/-- Python `str.rstrip()`. -/
def pyRStrip (l : List Char) : List Char := (l.reverse.dropWhile isPySpace).reverse

/-- Python `str.strip()`. -/
def pyStrip (l : List Char) : List Char := pyRStrip (pyLStrip l)

/-- Python `str.split(sep)` for a one-character separator: keeps empty parts. -/
def splitOnChar (a : Char) : List Char → List (List Char)
  | [] => [[]]
  | c :: cs =>
    if c = a then [] :: splitOnChar a cs
    else
      match splitOnChar a cs with
      | [] => [[c]]
      | l :: ls => (c :: l) :: ls

/-- `content.split('\n')` as used by `_clean_content_for_note`. -/
def splitLines (cs : List Char) : List (List Char) := splitOnChar '\n' cs

/-- `'\n'.join(lines)`. -/
def joinLines (ls : List (List Char)) : List Char := List.intercalate ['\n'] ls

/-! ## Pass 1: `re.sub(r'<[^>]+>', '', content)` -/

/-- Skip to just after the first `>` of the list, if any. -/
def afterGt : List Char → Option (List Char)
  | [] => none
  | '>' :: cs => some cs
  | _ :: cs => afterGt cs

/-- Given the text after a `<`, return the remainder after the matching `>`
of `<[^>]+>`, or `none` when the regex does not match here
(no `>` follows, or it follows immediately). -/
def findTagEnd : List Char → Option (List Char)
  | '>' :: _ => none
  | cs => afterGt cs

/-- `re.sub(r'<[^>]+>', '', ·)` as a fueled scan; fuel `length + 1` suffices
because every step consumes at least one input character. -/
def stripTagsF : Nat → List Char → List Char
  | 0, cs => cs
  | _ + 1, [] => []
  | f + 1, '<' :: cs =>
    match findTagEnd cs with
    | some rest => stripTagsF f rest
    | none => '<' :: stripTagsF f cs
  | f + 1, c :: cs => c :: stripTagsF f cs

/-! ## Pass 2: `re.sub(r'\[([^\]]+)\]\([^)]+\)', r'\1', content)` -/

/-- Split at the first occurrence of `a`: `some (before, after)`. -/
def splitAtChar (a : Char) : List Char → Option (List Char × List Char)
  | [] => none
  | c :: cs =>
    if c = a then some ([], cs)
    else
      match splitAtChar a cs with
      | some (x, y) => some (c :: x, y)
      | none => none

/-- Given the text after a `[`, parse `([^\]]+)\]\([^)]+\)`:
returns the captured link text and the remainder after the `)`. -/
def parseLink (cs : List Char) : Option (List Char × List Char) :=
  match splitAtChar ']' cs with
  | some (txt, r) =>
    if txt = [] then none
    else
      match r with
      | '(' :: u =>
        match splitAtChar ')' u with
        | some (url, v) => if url = [] then none else some (txt, v)
        | none => none
      | _ => none
  | none => none

/-- `re.sub(r'\[([^\]]+)\]\([^)]+\)', r'\1', ·)` as a fueled scan. -/
def stripLinksF : Nat → List Char → List Char
  | 0, cs => cs
  | _ + 1, [] => []
  | f + 1, '[' :: cs =>
    match parseLink cs with
    | some (txt, rest) => txt ++ stripLinksF f rest
    | none => '[' :: stripLinksF f cs
  | f + 1, c :: cs => c :: stripLinksF f cs

/-! ## Pass 3: `re.sub(r'~~([^~]+)~~', r'\1', content)` -/

/-- Given the text after `~~`, parse `([^~]+)~~`. -/
def parseStrike (cs : List Char) : Option (List Char × List Char) :=
  let txt := cs.takeWhile (· != '~')
  let r := cs.dropWhile (· != '~')
  if txt = [] then none
  else
    match r with
    | '~' :: '~' :: v => some (txt, v)
    | _ => none

/-- `re.sub(r'~~([^~]+)~~', r'\1', ·)` as a fueled scan. -/
def stripStrikesF : Nat → List Char → List Char
  | 0, cs => cs
  | _ + 1, [] => []
  | f + 1, '~' :: '~' :: cs =>
    match parseStrike cs with
    | some (txt, v) => txt ++ stripStrikesF f v
    | none => '~' :: stripStrikesF f ('~' :: cs)
  | f + 1, c :: cs => c :: stripStrikesF f cs

/-! ## The line loop (fences, tables, bullets) -/

/-- The three-character code fence, written via a string literal. -/
def fenceChars : List Char := "```".data

/-- `line.strip().startswith('```')`. -/
def isFenceLine (l : List Char) : Bool := fenceChars.isPrefixOf (pyStrip l)

/-- `line.startswith('|')`. -/
def startsPipe : List Char → Bool
  | [] => false
  | c :: _ => c == '|'

/-- `line.endswith('|')`. -/
def endsPipe (l : List Char) : Bool := startsPipe l.reverse

/-- `re.match(r'^\|[\s\-:]+\|', line)`: a `|`, then one or more
whitespace/`-`/`:` characters, then another `|`. -/
def isDividerLine : List Char → Bool
  | '|' :: r =>
    let m := r.takeWhile (fun c => isPySpace c || c == '-' || c == ':')
    let r2 := r.dropWhile (fun c => isPySpace c || c == '-' || c == ':')
    !m.isEmpty && startsPipe r2
  | _ => false

/-- `[c.strip() for c in line.strip('|').split('|')]`. -/
def tableCells (l : List Char) : List (List Char) :=
  let core := ((l.dropWhile (· == '|')).reverse.dropWhile (· == '|')).reverse
  (splitOnChar '|' core).map pyStrip

/-- `f"- {': '.join(cells)}"`. -/
def bulletOf (cells : List (List Char)) : List Char :=
  '-' :: ' ' :: List.intercalate (':' :: ' ' :: []) cells

/-- The table-row branch: `if cells and cells[0]: append the bullet line`,
otherwise the row is dropped. -/
def processRow (l : List Char) : Option (List Char) :=
  match tableCells l with
  | [] => none
  | c0 :: rest => if c0 = [] then none else some (bulletOf (c0 :: rest))

/-- `re.sub(r'^(\s*)\* ', r'\1- ', line)` (a line contains no newline;
the captured `\s*` run is `takeWhile`, the rest is `dropWhile`). -/
def starRewrite (l : List Char) : List Char :=
  match l.dropWhile isPySpace with
  | '*' :: ' ' :: rest => l.takeWhile isPySpace ++ '-' :: ' ' :: rest
  | _ => l

/-- The `for line in lines` loop of `_clean_content_for_note`, with the
`in_code_block` flag threaded through. -/
def tableLoop : Bool → List (List Char) → List (List Char)
  | _, [] => []
  | inCode, l :: ls =>
    if isFenceLine l then fenceChars :: tableLoop (!inCode) ls
    else if inCode then l :: tableLoop inCode ls
    else if isDividerLine l then tableLoop inCode ls
    else if startsPipe l && endsPipe l then
      match processRow l with
      | some b => b :: tableLoop inCode ls
      | none => tableLoop inCode ls
    else starRewrite l :: tableLoop inCode ls

/-! ## Pass 5: `re.sub(r'\n---+\n', '\n\n', content)` -/

/-- Given text after a `\n`, parse `---+\n` (three or more dashes then a
newline); returns the remainder after that newline. -/
def parseHRule (cs : List Char) : Option (List Char) :=
  let ds := cs.takeWhile (· == '-')
  let r := cs.dropWhile (· == '-')
  if 3 ≤ ds.length then
    match r with
    | '\n' :: v => some v
    | _ => none
  else none

/-- `re.sub(r'\n---+\n', '\n\n', ·)` as a fueled scan. -/
def removeHRulesF : Nat → List Char → List Char
  | 0, cs => cs
  | _ + 1, [] => []
  | f + 1, '\n' :: cs =>
    match parseHRule cs with
    | some v => '\n' :: '\n' :: removeHRulesF f v
    | none => '\n' :: removeHRulesF f cs
  | f + 1, c :: cs => c :: removeHRulesF f cs

/-! ## Pass 6 and final pass: `re.sub(r'\n{3,}', '\n\n', content)` -/

/-- `re.sub(r'\n{3,}', '\n\n', ·)` as a fueled scan. -/
def collapseBlanksF : Nat → List Char → List Char
  | 0, cs => cs
  | _ + 1, [] => []
  | f + 1, '\n' :: cs =>
    if 2 ≤ (cs.takeWhile (· == '\n')).length then
      '\n' :: '\n' :: collapseBlanksF f (cs.dropWhile (· == '\n'))
    else '\n' :: collapseBlanksF f cs
  | f + 1, c :: cs => c :: collapseBlanksF f cs

/-! ## Pass 7: `re.sub(r'^# ([^#])', r'## \1', content, flags=re.MULTILINE)` -/

/-- The scan carries an at-line-start flag for the MULTILINE anchor. -/
def demoteH1F : Nat → Bool → List Char → List Char
  | 0, _, cs => cs
  | _ + 1, _, [] => []
  | f + 1, true, '#' :: ' ' :: c :: cs =>
    if c = '#' then '#' :: demoteH1F f false (' ' :: c :: cs)
    else '#' :: '#' :: ' ' :: c :: demoteH1F f (c = '\n') cs
  | f + 1, _, c :: cs => c :: demoteH1F f (c = '\n') cs

/-! ## Pass 8: `re.sub(r'^####+ ', '### ', content, flags=re.MULTILINE)` -/

/-- Given the text after a line-initial `#`, parse `###+ ` (three or more
further hashes, then a space). -/
def parseH4 (cs : List Char) : Option (List Char) :=
  let hs := cs.takeWhile (· == '#')
  let r := cs.dropWhile (· == '#')
  if 3 ≤ hs.length then
    match r with
    | ' ' :: v => some v
    | _ => none
  else none

def demoteH4F : Nat → Bool → List Char → List Char
  | 0, _, cs => cs
  | _ + 1, _, [] => []
  | f + 1, true, '#' :: cs =>
    match parseH4 cs with
    | some v => '#' :: '#' :: '#' :: ' ' :: demoteH4F f false v
    | none => '#' :: demoteH4F f false cs
  | f + 1, _, c :: cs => c :: demoteH4F f (c = '\n') cs

/-! ## Pass 9: `re.sub(r'([^\n])\n(#{2,3} )', r'\1\n\n\2', content)` -/

/-- Parse `#{2,3} ` at the given position: an exact run of 2 or 3 hashes
followed by a space (a run of 4 or more hashes cannot match, since the
character after the consumed hashes would be `#`, not a space). -/
def parseHeading23 (cs : List Char) : Option (List Char × List Char) :=
  let hs := cs.takeWhile (· == '#')
  let r := cs.dropWhile (· == '#')
  if hs.length = 2 ∨ hs.length = 3 then
    match r with
    | ' ' :: v => some (hs, v)
    | _ => none
  else none

def blankBeforeHeadingF : Nat → List Char → List Char
  | 0, cs => cs
  | _ + 1, [] => []
  | f + 1, c :: cs =>
    if c = '\n' then c :: blankBeforeHeadingF f cs
    else
      match cs with
      | '\n' :: cs2 =>
        match parseHeading23 cs2 with
        | some (hs, v) => c :: '\n' :: '\n' :: (hs ++ ' ' :: blankBeforeHeadingF f v)
        | none => c :: blankBeforeHeadingF f cs
      | _ => c :: blankBeforeHeadingF f cs

/-! ## Pass 10: `re.sub(r'([^\n-\n])\n(- )', r'\1\n\n\2', content)`
(the character class `[^\n-\n]` is the range LF–LF negated, i.e. any
character other than a newline) -/

def blankBeforeBulletF : Nat → List Char → List Char
  | 0, cs => cs
  | _ + 1, [] => []
  | f + 1, c :: cs =>
    if c = '\n' then c :: blankBeforeBulletF f cs
    else
      match cs with
      | '\n' :: '-' :: ' ' :: v => c :: '\n' :: '\n' :: '-' :: ' ' :: blankBeforeBulletF f v
      | _ => c :: blankBeforeBulletF f cs

/-! ## Pass 11: `re.sub(r'(^- .+)\n\n(?=- )', r'\1\n', content, flags=re.MULTILINE)` -/

/-- Given the text after a line-initial `- `, parse `.+\n\n` with the
lookahead `(?=- )`; the lookahead is not consumed. -/
def parseBulletGap (cs : List Char) : Option (List Char × List Char) :=
  let txt := cs.takeWhile (· != '\n')
  let r := cs.dropWhile (· != '\n')
  if txt = [] then none
  else
    match r with
    | '\n' :: '\n' :: v =>
      match v with
      | '-' :: ' ' :: _ => some (txt, v)
      | _ => none
    | _ => none

def collapseBulletGapF : Nat → Bool → List Char → List Char
  | 0, _, cs => cs
  | _ + 1, _, [] => []
  | f + 1, true, '-' :: ' ' :: cs =>
    match parseBulletGap cs with
    | some (txt, v) => '-' :: ' ' :: (txt ++ '\n' :: collapseBulletGapF f true v)
    | none => '-' :: collapseBulletGapF f false (' ' :: cs)
  | f + 1, _, c :: cs => c :: collapseBulletGapF f (c = '\n') cs

/-! ## The full sanitizer -/

/-- `_clean_content_for_note`, over the character list of the input, with
the passes applied in the source order. -/
def clean_content_data (cs : List Char) : List Char :=
  let c1 := stripTagsF (cs.length + 1) cs
  let c2 := stripLinksF (c1.length + 1) c1
  let c3 := stripStrikesF (c2.length + 1) c2
  let c4 := joinLines (tableLoop false (splitLines c3))
  let c5 := removeHRulesF (c4.length + 1) c4
  let c6 := collapseBlanksF (c5.length + 1) c5
  let c7 := demoteH1F (c6.length + 1) true c6
  let c8 := demoteH4F (c7.length + 1) true c7
  let c9 := blankBeforeHeadingF (c8.length + 1) c8
  let c10 := blankBeforeBulletF (c9.length + 1) c9
  let c11 := collapseBulletGapF (c10.length + 1) true c10
  let c12 := pyStrip c11
  collapseBlanksF (c12.length + 1) c12

/-- `NotePublisher._clean_content_for_note`. -/
def clean_content_for_note (s : String) : String := ⟨clean_content_data s.data⟩

/-! ## Data model

`Article` mirrors `article_generator.Article` (a pydantic model): title,
markdown content, hashtags, and the English thumbnail prompt.  It carries
no price field. -/

structure Article where
  title : String
  content : String
  tags : List String
  thumbnail_prompt : String
  deriving DecidableEq

/-- `NotePublisher.DEFAULT_PRICE`. -/
def DEFAULT_PRICE : Int := 300

/-- `NotePublisher.PAID_LINE_MARKER` (the sentinel text). -/
def PAID_LINE_MARKER : String := "===ここから有料==="

/-- `self.price = price if price is not None else self.DEFAULT_PRICE`
from `NotePublisher.__init__`. -/
def initPrice : Option Int → Int
  | some p => p
  | none => DEFAULT_PRICE

/-- `is_paid_article = self.price and self.price > 0`: with `price == 0`
the conjunct is the falsy int `0`; otherwise it is the boolean
`price > 0`. -/
def isPaidArticle (price : Int) : Bool :=
  if price = 0 then false else decide (0 < price)

/-! ## Events and environment

The UI interactions of one publish attempt are recorded as a trace of
events.  The `Env` record models what the externally-controlled page
offers: which controls are visible, the bounding-box vertical positions
of the located split-point controls (`none` when `bounding_box()` returns
nothing), whether and where the paid marker is found by the bounded
scroll search, and which screenshot writes fail (raising inside
`page.screenshot`). -/

inductive Ev where
  | screenshot (label : String)
  | fillEmail
  | fillPassword
  | clickLogin
  | fillTitle (t : String)
  | typeBody (body : String)
  | uploadThumb
  | clickProceed
  | tagClick
  | tagFill (t : String)
  | tagEnter
  | setPaid (price : Int)
  | setMembership
  | clickPaidArea
  | clickLineButton (i : Nat)
  | clickPublish
  deriving DecidableEq

structure Env where
  /-- Labels of screenshot files whose write fails (the `page.screenshot`
  call raises). -/
  failingShots : List String
  emailFieldOk : Bool
  passwordFieldOk : Bool
  loginButtonOk : Bool
  loginNavOk : Bool
  /-- The new-note page redirected back to the login page. -/
  redirectedToLogin : Bool
  /-- A title input was obtained (by any of the selectors or the
  textarea fallback). -/
  titleFound : Bool
  /-- The `有料エリア設定` button is visible. -/
  paidAreaButtonVisible : Bool
  /-- The `投稿する` button is visible. -/
  publishButtonVisible : Bool
  /-- `bounding_box()['y']` of each located split-point control, in
  locator order; `none` when the control has no bounding box. -/
  lineButtons : List (Option Int)
  /-- Result of the bounded scroll search for the marker text:
  `none` = never found; `some none` = found but `bounding_box()` is
  `None`; `some (some y)` = found with vertical position `y`. -/
  marker : Option (Option Int)
  deriving DecidableEq

/-- Whether the screenshot with the given label fails to write. -/
def shotFails (env : Env) (label : String) : Bool :=
  env.failingShots.contains label

/-! ## `_select_paid_line_position`: choosing the split-point control -/

/-- Pair every list element with its index, starting at `k`. -/
def withIdx : Nat → List α → List (Nat × α)
  | _, [] => []
  | k, a :: as => (k, a) :: withIdx (k + 1) as

/-- The loop over `line_buttons` that tracks `closest_button` and
`closest_distance`: a button with a bounding box strictly above the
marker (`btn_y < marker_y`) replaces the accumulator when its distance
`marker_y - btn_y` is strictly smaller. -/
def pickClosest (markerY : Int) : List (Nat × Option Int) → Option (Nat × Int) → Option (Nat × Int)
  | [], acc => acc
  | (_, none) :: rest, acc => pickClosest markerY rest acc
  | (i, some y) :: rest, acc =>
    if y < markerY then
      let d := markerY - y
      match acc with
      | none => pickClosest markerY rest (some (i, d))
      | some (j, dj) =>
        if d < dj then pickClosest markerY rest (some (i, d))
        else pickClosest markerY rest (some (j, dj))
    else pickClosest markerY rest acc

/-- The index (and distance) of the clicked button when the marker has a
bounding box at `markerY`. -/
def closestAbove (markerY : Int) (bs : List (Option Int)) : Option (Nat × Int) :=
  pickClosest markerY (withIdx 0 bs) none

/-- `_select_paid_line_position`, as the list of events it produces.  The
whole body runs inside one `try`; a failing debug screenshot is caught by
the handler, whose own error screenshot may raise (propagating out).
When no split-point button is located the method returns without
clicking; when the marker (with a bounding box) has a strictly-above
button the closest one is clicked; otherwise the first button is
clicked. -/
def select_paid_line_position (env : Env) : Except Unit (List Ev) :=
  if shotFails env "debug_paid_line_selection" then
    if shotFails env "error_paid_line_selection" then Except.error ()
    else Except.ok [Ev.screenshot "error_paid_line_selection"]
  else
    let shot := Ev.screenshot "debug_paid_line_selection"
    if env.lineButtons.isEmpty then Except.ok [shot]
    else
      match env.marker with
      | some (some my) =>
        match closestAbove my env.lineButtons with
        | some (i, _) => Except.ok [shot, Ev.clickLineButton i]
        | none => Except.ok [shot, Ev.clickLineButton 0]
      | some none => Except.ok [shot, Ev.clickLineButton 0]
      | none => Except.ok [shot, Ev.clickLineButton 0]

/-! ## `_input_tags` -/

/-- `_input_tags`: for each tag, click the entry field, fill the tag,
and press Enter. -/
def input_tags (tags : List String) : List Ev :=
  tags.flatMap fun t => [Ev.tagClick, Ev.tagFill t, Ev.tagEnter]

/-! ## `_login` -/

/-- `_login`.  The debug screenshot at the top is not inside any `try`,
so its failure raises out of the method (`Except.error`).  Each input
step has its own `try/except` returning `False`; the handlers take debug
screenshots that may themselves raise.  After a successful navigation
wait, the `debug_after_login` screenshot runs inside the final `try`, so
its failure is caught and converted into a `False` return (unless the
handler screenshot also fails). -/
def login (env : Env) : Except Unit (Bool × List Ev) :=
  if shotFails env "debug_login_page" then Except.error ()
  else
    let t0 := [Ev.screenshot "debug_login_page"]
    if !env.emailFieldOk then
      if shotFails env "debug_email_error" then Except.error ()
      else Except.ok (false, t0 ++ [Ev.screenshot "debug_email_error"])
    else
      let t1 := t0 ++ [Ev.fillEmail]
      if !env.passwordFieldOk then
        if shotFails env "debug_password_error" then Except.error ()
        else Except.ok (false, t1 ++ [Ev.screenshot "debug_password_error"])
      else
        let t2 := t1 ++ [Ev.fillPassword]
        if !env.loginButtonOk then
          if shotFails env "debug_login_button_error" then Except.error ()
          else Except.ok (false, t2 ++ [Ev.screenshot "debug_login_button_error"])
        else
          let t3 := t2 ++ [Ev.clickLogin]
          if !env.loginNavOk || shotFails env "debug_after_login" then
            if shotFails env "debug_login_failed" then Except.error ()
            else Except.ok (false, t3 ++ [Ev.screenshot "debug_login_failed"])
          else Except.ok (true, t3 ++ [Ev.screenshot "debug_after_login"])

/-! ## `_create_and_publish` -/

/-- The heading appended before the thumbnail prompt. -/
def thumbnailHeader : String := "\n\n## Thumbnail Prompt (for Whisk)\n"

/-- Python `content.rstrip()` on a string. -/
def pyRStripS (s : String) : String := ⟨pyRStrip s.data⟩

/-- The body text handed to `_type_content`: when `article.thumbnail_prompt`
is non-empty, the right-stripped content followed by the thumbnail
heading and the prompt; otherwise the content itself. -/
def contentWithPrompt (a : Article) : String :=
  if a.thumbnail_prompt ≠ "" then pyRStripS a.content ++ thumbnailHeader ++ a.thumbnail_prompt
  else a.content

/-- `_create_and_publish`.  `price` is `self.price`; `thumb` records
whether an effective thumbnail path was supplied.  Returns the Python
return value together with the event trace, or `Except.error` when an
exception propagates out of the method. -/
def create_and_publish (price : Int) (thumb : Bool) (env : Env) (a : Article) :
    Except Unit (Bool × List Ev) :=
  if shotFails env "debug_new_article_page" then Except.error ()
  else
    let tr0 := [Ev.screenshot "debug_new_article_page"]
    if env.redirectedToLogin then
      if shotFails env "debug_redirected_to_login" then Except.error ()
      else Except.ok (false, tr0 ++ [Ev.screenshot "debug_redirected_to_login"])
    else if !env.titleFound then
      if shotFails env "debug_title_not_found" then Except.error ()
      else Except.ok (false, tr0 ++ [Ev.screenshot "debug_title_not_found"])
    else
      let tr1 := tr0 ++ [Ev.fillTitle a.title,
        Ev.typeBody (clean_content_for_note (contentWithPrompt a))]
      let tr2 := tr1 ++ (if thumb then [Ev.uploadThumb] else [])
      let tr3 := tr2 ++ [Ev.clickProceed]
      let tr4 := tr3 ++ (if a.tags ≠ [] then input_tags a.tags else [])
      let paid := isPaidArticle price
      let tr5 := tr4 ++ (if paid then [Ev.setPaid price, Ev.setMembership] else [])
      if paid && env.paidAreaButtonVisible then
        match select_paid_line_position env with
        | Except.error () => Except.error ()
        | Except.ok sel =>
          let tr6 := tr5 ++ [Ev.clickPaidArea] ++ sel
          if env.publishButtonVisible then Except.ok (true, tr6 ++ [Ev.clickPublish])
          else Except.ok (false, tr6)
      else
        if env.publishButtonVisible then Except.ok (true, tr5 ++ [Ev.clickPublish])
        else Except.ok (false, tr5)

/-! ## `publish` -/

/-- `publish`: login, then create-and-publish, inside a `try` whose
handler takes `error_screenshot.png` (which may itself fail, in which
case the exception escapes `publish`) and returns `False`. -/
def publish (price : Int) (thumb : Bool) (env : Env) (a : Article) :
    Except Unit (Bool × List Ev) :=
  match login env with
  | Except.error () =>
    if shotFails env "error_screenshot" then Except.error ()
    else Except.ok (false, [Ev.screenshot "error_screenshot"])
  | Except.ok (false, tr) => Except.ok (false, tr)
  | Except.ok (true, tr) =>
    match create_and_publish price thumb env a with
    | Except.error () =>
      if shotFails env "error_screenshot" then Except.error ()
      else Except.ok (false, tr ++ [Ev.screenshot "error_screenshot"])
    | Except.ok (b, tr2) => Except.ok (b, tr ++ tr2)

/-- The trace of a possibly-raising run (empty when the run raised). -/
def traceOf : Except Unit (Bool × List Ev) → List Ev
  | Except.error () => []
  | Except.ok (_, tr) => tr

/-- Monetization-related events: the paid toggle and price entry, the
membership restriction, and the split-point placement. -/
def isMonetEv : Ev → Bool
  | Ev.setPaid _ => true
  | Ev.setMembership => true
  | Ev.clickPaidArea => true
  | Ev.clickLineButton _ => true
  | _ => false

/-- The tag texts confirmed, in trace order. -/
def tagFills : List Ev → List String
  | [] => []
  | Ev.tagFill t :: tr => t :: tagFills tr
  | _ :: tr => tagFills tr

/-- The bodies typed into the editor, in trace order. -/
def typedBodies : List Ev → List String
  | [] => []
  | Ev.typeBody b :: tr => b :: typedBodies tr
  | _ :: tr => typedBodies tr

/-! ## Helper lemmas about traces -/

theorem tagFills_append (xs ys : List Ev) :
    tagFills (xs ++ ys) = tagFills xs ++ tagFills ys := by
  induction xs with
  | nil => rfl
  | cons e xs ih => cases e <;> simp [tagFills, ih]

theorem typedBodies_append (xs ys : List Ev) :
    typedBodies (xs ++ ys) = typedBodies xs ++ typedBodies ys := by
  induction xs with
  | nil => rfl
  | cons e xs ih => cases e <;> simp [typedBodies, ih]

theorem input_tags_cons (t : String) (ts : List String) :
    input_tags (t :: ts) = [Ev.tagClick, Ev.tagFill t, Ev.tagEnter] ++ input_tags ts := by
  simp [input_tags]

theorem tagFills_input_tags (ts : List String) : tagFills (input_tags ts) = ts := by
  induction ts with
  | nil => rfl
  | cons t ts ih => rw [input_tags_cons, tagFills_append, ih]; rfl

theorem typedBodies_input_tags (ts : List String) : typedBodies (input_tags ts) = [] := by
  induction ts with
  | nil => rfl
  | cons t ts ih => rw [input_tags_cons, typedBodies_append, ih]; rfl

theorem monet_input_tags (ts : List String) :
    ∀ e ∈ input_tags ts, isMonetEv e = false := by
  induction ts with
  | nil => intro e he; cases he
  | cons t ts ih =>
    intro e he
    rw [input_tags_cons] at he
    rcases List.mem_append.1 he with h | h
    · simp only [List.mem_cons, List.not_mem_nil, or_false] at h
      rcases h with rfl | rfl | rfl <;> rfl
    · exact ih e h

theorem filter_monet_input_tags (ts : List String) :
    (input_tags ts).filter isMonetEv = [] := by
  rw [List.filter_eq_nil_iff]
  intro e he
  rw [monet_input_tags ts e he]
  simp

/-- Under a working debug screenshot, `_select_paid_line_position` always
returns (it never lets an exception escape), and it produces no tag-fill,
no body-typing and only monetization or screenshot events. -/
theorem select_paid_line_position_ok (env : Env)
    (h : shotFails env "debug_paid_line_selection" = false) :
    ∃ sel, select_paid_line_position env = Except.ok sel ∧
      tagFills sel = [] ∧ typedBodies sel = [] := by
  by_cases hempty : env.lineButtons.isEmpty
  · refine ⟨[Ev.screenshot "debug_paid_line_selection"], ?_, rfl, rfl⟩
    simp [select_paid_line_position, h, hempty]
  · cases hm : env.marker with
    | none =>
      refine ⟨[Ev.screenshot "debug_paid_line_selection", Ev.clickLineButton 0], ?_, rfl, rfl⟩
      simp [select_paid_line_position, h, hempty, hm]
    | some o =>
      cases o with
      | none =>
        refine ⟨[Ev.screenshot "debug_paid_line_selection", Ev.clickLineButton 0], ?_, rfl, rfl⟩
        simp [select_paid_line_position, h, hempty, hm]
      | some my =>
        cases hc : closestAbove my env.lineButtons with
        | none =>
          refine ⟨[Ev.screenshot "debug_paid_line_selection", Ev.clickLineButton 0], ?_, rfl, rfl⟩
          simp [select_paid_line_position, h, hempty, hm, hc]
        | some p =>
          refine ⟨[Ev.screenshot "debug_paid_line_selection", Ev.clickLineButton p.1], ?_, rfl, rfl⟩
          simp [select_paid_line_position, h, hempty, hm, hc]

theorem tagFills_thumbSection (b : Bool) :
    tagFills (if b then [Ev.uploadThumb] else []) = [] := by
  cases b <;> rfl

theorem typedBodies_thumbSection (b : Bool) :
    typedBodies (if b then [Ev.uploadThumb] else []) = [] := by
  cases b <;> rfl

theorem tagFills_tagSection (c : Prop) [Decidable c] (ts : List String) :
    tagFills (if c then input_tags ts else []) = if c then ts else [] := by
  split <;> simp [tagFills_input_tags, tagFills]

theorem typedBodies_tagSection (c : Prop) [Decidable c] (ts : List String) :
    typedBodies (if c then input_tags ts else []) = [] := by
  split <;> simp [typedBodies_input_tags, typedBodies]

/-! ## Claim C2 -/

/-- C2: with `price = 0` the publish attempt never executes the
monetization step (`有料` toggle and price entry, membership
restriction) nor the split-point placement: after the optional tag
entry the trace goes directly to the free-flow `投稿する` click.  The
first conjunct gives the exact result of `_create_and_publish`; the
second states that no monetization event occurs anywhere in the
trace. -/
theorem c2_price_zero_skips_monetization (thumb : Bool) (env : Env) (a : Article)
    (hshot : shotFails env "debug_new_article_page" = false)
    (hred : env.redirectedToLogin = false)
    (htitle : env.titleFound = true) :
    create_and_publish 0 thumb env a =
      Except.ok (env.publishButtonVisible,
        [Ev.screenshot "debug_new_article_page", Ev.fillTitle a.title,
          Ev.typeBody (clean_content_for_note (contentWithPrompt a))]
        ++ (if thumb then [Ev.uploadThumb] else [])
        ++ [Ev.clickProceed]
        ++ (if a.tags ≠ [] then input_tags a.tags else [])
        ++ (if env.publishButtonVisible then [Ev.clickPublish] else [])) ∧
    (traceOf (create_and_publish 0 thumb env a)).filter isMonetEv = [] := by
  have h1 : create_and_publish 0 thumb env a =
      Except.ok (env.publishButtonVisible,
        [Ev.screenshot "debug_new_article_page", Ev.fillTitle a.title,
          Ev.typeBody (clean_content_for_note (contentWithPrompt a))]
        ++ (if thumb then [Ev.uploadThumb] else [])
        ++ [Ev.clickProceed]
        ++ (if a.tags ≠ [] then input_tags a.tags else [])
        ++ (if env.publishButtonVisible then [Ev.clickPublish] else [])) := by
    by_cases hpub : env.publishButtonVisible <;>
      simp [create_and_publish, hshot, hred, htitle, isPaidArticle, hpub]
  refine ⟨h1, ?_⟩
  rw [h1]
  by_cases hthumb : thumb <;> by_cases htags : a.tags = [] <;>
    by_cases hpub : env.publishButtonVisible <;>
      simp [traceOf, List.filter_append, filter_monet_input_tags, isMonetEv,
        hthumb, htags, hpub]

/-- Witness for C2 at a concrete environment and article. -/
theorem c2_witness :
    create_and_publish 0 false
        { failingShots := [], emailFieldOk := true, passwordFieldOk := true,
          loginButtonOk := true, loginNavOk := true, redirectedToLogin := false,
          titleFound := true, paidAreaButtonVisible := true,
          publishButtonVisible := true, lineButtons := [some 10],
          marker := none }
        { title := "T", content := "Hi.", tags := ["x"], thumbnail_prompt := "" } =
      Except.ok (true,
        [Ev.screenshot "debug_new_article_page", Ev.fillTitle "T",
          Ev.typeBody (clean_content_for_note (contentWithPrompt
            { title := "T", content := "Hi.", tags := ["x"], thumbnail_prompt := "" }))]
        ++ ([] : List Ev)
        ++ [Ev.clickProceed]
        ++ input_tags ["x"]
        ++ [Ev.clickPublish]) := by
  have h := (c2_price_zero_skips_monetization false
    { failingShots := [], emailFieldOk := true, passwordFieldOk := true,
      loginButtonOk := true, loginNavOk := true, redirectedToLogin := false,
      titleFound := true, paidAreaButtonVisible := true,
      publishButtonVisible := true, lineButtons := [some 10],
      marker := none }
    { title := "T", content := "Hi.", tags := ["x"], thumbnail_prompt := "" }
    rfl rfl rfl).1
  simpa using h

/-! ## Claim C3 -/

/-- C3: with a positive price and no locatable marker (the bounded scroll
search fails on the exact sentinel and on all fallback phrases), the
split-point placement still completes by clicking the first located
split-point control, and the attempt still reaches the final `投稿する`
submission with outcome `True`. -/
theorem c3_marker_missing_falls_back_to_first (price : Int) (thumb : Bool)
    (env : Env) (a : Article)
    (hp : 0 < price)
    (hshot1 : shotFails env "debug_new_article_page" = false)
    (hshot2 : shotFails env "debug_paid_line_selection" = false)
    (hred : env.redirectedToLogin = false)
    (htitle : env.titleFound = true)
    (hmarker : env.marker = none)
    (hbtns : env.lineButtons ≠ [])
    (hpaidbtn : env.paidAreaButtonVisible = true)
    (hpub : env.publishButtonVisible = true) :
    ∃ tr, create_and_publish price thumb env a = Except.ok (true, tr) ∧
      Ev.clickLineButton 0 ∈ tr ∧ Ev.clickPublish ∈ tr := by
  have hpaid : isPaidArticle price = true := by
    unfold isPaidArticle
    rw [if_neg (by omega)]
    exact decide_eq_true hp
  have hempty : env.lineButtons.isEmpty = false := by
    cases h' : env.lineButtons with
    | nil => exact absurd h' hbtns
    | cons x xs => rfl
  have hsel : select_paid_line_position env =
      Except.ok [Ev.screenshot "debug_paid_line_selection", Ev.clickLineButton 0] := by
    simp [select_paid_line_position, hshot2, hempty, hmarker]
  refine ⟨[Ev.screenshot "debug_new_article_page", Ev.fillTitle a.title,
      Ev.typeBody (clean_content_for_note (contentWithPrompt a))]
    ++ (if thumb then [Ev.uploadThumb] else [])
    ++ [Ev.clickProceed]
    ++ (if a.tags ≠ [] then input_tags a.tags else [])
    ++ [Ev.setPaid price, Ev.setMembership]
    ++ [Ev.clickPaidArea]
    ++ [Ev.screenshot "debug_paid_line_selection", Ev.clickLineButton 0]
    ++ [Ev.clickPublish], ?_, ?_, ?_⟩
  · simp [create_and_publish, hshot1, hred, htitle, hpaid, hpaidbtn, hsel, hpub]
  · simp
  · simp

/-- Witness for C3 at a concrete environment and article. -/
theorem c3_witness :
    ∃ tr, create_and_publish 100 false
        { failingShots := [], emailFieldOk := true, passwordFieldOk := true,
          loginButtonOk := true, loginNavOk := true, redirectedToLogin := false,
          titleFound := true, paidAreaButtonVisible := true,
          publishButtonVisible := true, lineButtons := [some 10, some 40],
          marker := none }
        { title := "T", content := "Hi.", tags := [], thumbnail_prompt := "" } =
      Except.ok (true, tr) ∧
      Ev.clickLineButton 0 ∈ tr ∧ Ev.clickPublish ∈ tr :=
  c3_marker_missing_falls_back_to_first 100 false
    { failingShots := [], emailFieldOk := true, passwordFieldOk := true,
      loginButtonOk := true, loginNavOk := true, redirectedToLogin := false,
      titleFound := true, paidAreaButtonVisible := true,
      publishButtonVisible := true, lineButtons := [some 10, some 40],
      marker := none }
    { title := "T", content := "Hi.", tags := [], thumbnail_prompt := "" }
    (by decide) rfl rfl rfl rfl rfl (by decide) rfl rfl

/-! ## Claim C7 -/

/-- C7: whenever the flow reaches the tag-entry step, the confirmed tag
texts in the trace equal `Article.tags` in order, and each tag is
clicked, filled and confirmed with a simulated Enter before the next tag
is started. -/
theorem c7_tags_confirmed_in_article_order (price : Int) (thumb : Bool)
    (env : Env) (a : Article)
    (hshot1 : shotFails env "debug_new_article_page" = false)
    (hshot2 : shotFails env "debug_paid_line_selection" = false)
    (hred : env.redirectedToLogin = false)
    (htitle : env.titleFound = true) :
    tagFills (traceOf (create_and_publish price thumb env a)) = a.tags ∧
    ∀ t ts, input_tags (t :: ts) =
      [Ev.tagClick, Ev.tagFill t, Ev.tagEnter] ++ input_tags ts := by
  refine ⟨?_, fun t ts => input_tags_cons t ts⟩
  obtain ⟨sel, hsel, htf, _⟩ := select_paid_line_position_ok env hshot2
  by_cases h1 : isPaidArticle price <;> by_cases h2 : env.paidAreaButtonVisible <;>
    by_cases h3 : env.publishButtonVisible <;> by_cases h4 : a.tags = [] <;>
      simp [create_and_publish, hshot1, hred, htitle, hsel, h1, h2, h3, h4,
        traceOf, tagFills_append, tagFills_input_tags, tagFills_thumbSection,
        htf, tagFills]

/-- Witness for C7 at a concrete environment and article. -/
theorem c7_witness :
    tagFills (traceOf (create_and_publish 300 false
        { failingShots := [], emailFieldOk := true, passwordFieldOk := true,
          loginButtonOk := true, loginNavOk := true, redirectedToLogin := false,
          titleFound := true, paidAreaButtonVisible := true,
          publishButtonVisible := true, lineButtons := [some 10],
          marker := some (some 40) }
        { title := "T", content := "Hi.", tags := ["ai", "dev"],
          thumbnail_prompt := "" })) = ["ai", "dev"] :=
  (c7_tags_confirmed_in_article_order 300 false
    { failingShots := [], emailFieldOk := true, passwordFieldOk := true,
      loginButtonOk := true, loginNavOk := true, redirectedToLogin := false,
      titleFound := true, paidAreaButtonVisible := true,
      publishButtonVisible := true, lineButtons := [some 10],
      marker := some (some 40) }
    { title := "T", content := "Hi.", tags := ["ai", "dev"],
      thumbnail_prompt := "" }
    rfl rfl rfl rfl).1

/-! ## Claim C9 -/

theorem filter_monet_thumbSection (b : Bool) :
    (if b then [Ev.uploadThumb] else []).filter isMonetEv = [] := by
  cases b <;> rfl

theorem filter_monet_tagSection (c : Prop) [Decidable c] (ts : List String) :
    (if c then input_tags ts else []).filter isMonetEv = [] := by
  split <;> simp [filter_monet_input_tags]

theorem filter_monet_tagSection2 (c : Prop) [Decidable c] (ts : List String) :
    (if c then [] else input_tags ts).filter isMonetEv = [] := by
  split <;> simp [filter_monet_input_tags]

/-- C9: the paid-versus-free decision depends only on the price the
publisher was constructed with, never on the article: the `Article`
model carries no price field, a missing constructor price defaults to
`DEFAULT_PRICE = 300`, and two attempts with the same publisher price
and the same page environment produce exactly the same monetization
events for any two articles. -/
theorem c9_paid_branch_depends_only_on_price :
    initPrice none = 300 ∧
    ∀ (price : Int) (thumb : Bool) (env : Env) (a1 a2 : Article),
      (traceOf (create_and_publish price thumb env a1)).filter isMonetEv =
      (traceOf (create_and_publish price thumb env a2)).filter isMonetEv := by
  refine ⟨rfl, ?_⟩
  intro price thumb env a1 a2
  by_cases hshot : shotFails env "debug_new_article_page"
  · simp [create_and_publish, hshot, traceOf]
  · by_cases hred : env.redirectedToLogin
    · by_cases h2 : shotFails env "debug_redirected_to_login" <;>
        simp [create_and_publish, hshot, hred, h2, traceOf, isMonetEv]
    · by_cases htitle : env.titleFound
      · cases hsel : select_paid_line_position env with
        | error e =>
          by_cases h1 : isPaidArticle price <;>
            by_cases h2 : env.paidAreaButtonVisible <;>
              by_cases h3 : env.publishButtonVisible <;>
                simp [create_and_publish, hshot, hred, htitle, hsel, h1, h2, h3,
                  traceOf, List.filter_append, filter_monet_input_tags,
                  filter_monet_thumbSection, filter_monet_tagSection, filter_monet_tagSection2, isMonetEv]
        | ok sel =>
          by_cases h1 : isPaidArticle price <;>
            by_cases h2 : env.paidAreaButtonVisible <;>
              by_cases h3 : env.publishButtonVisible <;>
                simp [create_and_publish, hshot, hred, htitle, hsel, h1, h2, h3,
                  traceOf, List.filter_append, filter_monet_input_tags,
                  filter_monet_thumbSection, filter_monet_tagSection, filter_monet_tagSection2, isMonetEv]
      · by_cases h2 : shotFails env "debug_title_not_found" <;>
          simp [create_and_publish, hshot, hred, htitle, h2, traceOf, isMonetEv]

/-! ## Claim C10 -/

theorem pyRStrip_decomp (l : List Char) :
    l = pyRStrip l ++ (l.reverse.takeWhile isPySpace).reverse := by
  calc l = l.reverse.reverse := l.reverse_reverse.symm
    _ = (l.reverse.takeWhile isPySpace ++ l.reverse.dropWhile isPySpace).reverse := by
        rw [List.takeWhile_append_dropWhile]
    _ = (l.reverse.dropWhile isPySpace).reverse ++ (l.reverse.takeWhile isPySpace).reverse :=
        List.reverse_append _ _
    _ = pyRStrip l ++ (l.reverse.takeWhile isPySpace).reverse := rfl

theorem mem_trailing_space (l : List Char) :
    ∀ c ∈ (l.reverse.takeWhile isPySpace).reverse, isPySpace c = true := by
  intro c hc
  rw [List.mem_reverse] at hc
  exact List.mem_takeWhile_imp hc

/-- Appending the thumbnail heading and a prompt always changes the body
text: the heading contains a `#`, which is not trailing whitespace. -/
theorem contentWithPrompt_ne (a : Article) (hprompt : a.thumbnail_prompt ≠ "") :
    contentWithPrompt a ≠ a.content := by
  intro h
  rw [contentWithPrompt, if_pos hprompt] at h
  have hd : pyRStrip a.content.data ++ (thumbnailHeader.data ++ a.thumbnail_prompt.data) =
      a.content.data := by
    have h2 := congrArg String.data h
    simpa [pyRStripS, String.data_append, List.append_assoc] using h2
  have hw : thumbnailHeader.data ++ a.thumbnail_prompt.data =
      (a.content.data.reverse.takeWhile isPySpace).reverse :=
    List.append_cancel_left (by rw [hd]; exact pyRStrip_decomp _)
  have hmem : ('#' : Char) ∈ (a.content.data.reverse.takeWhile isPySpace).reverse := by
    rw [← hw]
    exact List.mem_append_left _ (by decide)
  have hsp := mem_trailing_space a.content.data '#' hmem
  exact absurd hsp (by decide)

/-- C10: when `Article.thumbnail_prompt` is non-empty, what is typed into
the body editor is not the sanitized article body alone: the body is
first right-stripped and extended with the heading
`## Thumbnail Prompt (for Whisk)` followed by the prompt, and the only
body ever typed in the trace is the sanitized extension; the extension
always differs from the plain body. -/
theorem c10_typed_body_includes_prompt (price : Int) (thumb : Bool)
    (env : Env) (a : Article)
    (hprompt : a.thumbnail_prompt ≠ "")
    (hshot1 : shotFails env "debug_new_article_page" = false)
    (hshot2 : shotFails env "debug_paid_line_selection" = false)
    (hred : env.redirectedToLogin = false)
    (htitle : env.titleFound = true) :
    typedBodies (traceOf (create_and_publish price thumb env a)) =
      [clean_content_for_note
        (pyRStripS a.content ++ thumbnailHeader ++ a.thumbnail_prompt)] ∧
    contentWithPrompt a ≠ a.content := by
  refine ⟨?_, contentWithPrompt_ne a hprompt⟩
  obtain ⟨sel, hsel, _, htb⟩ := select_paid_line_position_ok env hshot2
  have hcw : contentWithPrompt a =
      pyRStripS a.content ++ thumbnailHeader ++ a.thumbnail_prompt := by
    rw [contentWithPrompt, if_pos hprompt]
  by_cases h1 : isPaidArticle price <;> by_cases h2 : env.paidAreaButtonVisible <;>
    by_cases h3 : env.publishButtonVisible <;> by_cases h4 : a.tags = [] <;>
      simp [create_and_publish, hshot1, hred, htitle, hsel, h1, h2, h3, h4,
        traceOf, typedBodies_append, typedBodies_input_tags,
        typedBodies_thumbSection, htb, typedBodies, hcw]

/-- Witness for C10 at a concrete environment and article. -/
theorem c10_witness :
    typedBodies (traceOf (create_and_publish 0 false
        { failingShots := [], emailFieldOk := true, passwordFieldOk := true,
          loginButtonOk := true, loginNavOk := true, redirectedToLogin := false,
          titleFound := true, paidAreaButtonVisible := true,
          publishButtonVisible := true, lineButtons := [],
          marker := none }
        { title := "T", content := "Body.", tags := [],
          thumbnail_prompt := "A cat." })) =
      [clean_content_for_note
        (pyRStripS "Body." ++ thumbnailHeader ++ "A cat.")] ∧
    contentWithPrompt
        { title := "T", content := "Body.", tags := [],
          thumbnail_prompt := "A cat." } ≠ "Body." :=
  c10_typed_body_includes_prompt 0 false
    { failingShots := [], emailFieldOk := true, passwordFieldOk := true,
      loginButtonOk := true, loginNavOk := true, redirectedToLogin := false,
      titleFound := true, paidAreaButtonVisible := true,
      publishButtonVisible := true, lineButtons := [],
      marker := none }
    { title := "T", content := "Body.", tags := [],
      thumbnail_prompt := "A cat." }
    (by decide) rfl rfl rfl rfl

/-! ## Claim C1 -/

theorem withIdx_mem {α : Type} (l : List α) :
    ∀ (k i : Nat) (a : α), ((i, a) ∈ withIdx k l) ↔ ∃ m, i = k + m ∧ l[m]? = some a := by
  induction l with
  | nil => intro k i a; simp [withIdx]
  | cons b l ih =>
    intro k i a
    simp only [withIdx, List.mem_cons, ih, Prod.mk.injEq]
    constructor
    · rintro (⟨rfl, rfl⟩ | ⟨m, rfl, hm⟩)
      · exact ⟨0, by omega, by simp⟩
      · exact ⟨m + 1, by omega, by simpa using hm⟩
    · rintro ⟨m, rfl, hm⟩
      cases m with
      | zero =>
        left
        simp only [List.getElem?_cons_zero, Option.some.injEq] at hm
        exact ⟨by omega, hm.symm⟩
      | succ m =>
        right
        exact ⟨m, by omega, by simpa using hm⟩

/-- Invariant of the `closest_button` loop: the result is either the
incoming accumulator or a strictly-above entry of the list together with
its distance; every strictly-above entry of the list forces a result
whose distance is no larger than its own; and the result's distance
never exceeds the accumulator's. -/
theorem pickClosest_spec (my : Int) :
    ∀ (l : List (Nat × Option Int)) (acc : Option (Nat × Int)),
      (pickClosest my l acc = acc ∨
        ∃ i y, (i, some y) ∈ l ∧ y < my ∧ pickClosest my l acc = some (i, my - y)) ∧
      (∀ i y, (i, some y) ∈ l → y < my →
        ∃ j d, pickClosest my l acc = some (j, d) ∧ d ≤ my - y) ∧
      (∀ j d, acc = some (j, d) →
        ∃ j2 d2, pickClosest my l acc = some (j2, d2) ∧ d2 ≤ d) := by
  intro l
  induction l with
  | nil =>
    intro acc
    refine ⟨Or.inl rfl, ?_, ?_⟩
    · intro i y h; cases h
    · intro j d h; exact ⟨j, d, h, le_refl d⟩
  | cons p l ih =>
    intro acc
    obtain ⟨i, b⟩ := p
    cases b with
    | none =>
      have h := ih acc
      have heq : pickClosest my ((i, none) :: l) acc = pickClosest my l acc := rfl
      refine ⟨?_, ?_, ?_⟩
      · rcases h.1 with h1 | ⟨i2, y2, hm, hy, he⟩
        · exact Or.inl (heq ▸ h1)
        · exact Or.inr ⟨i2, y2, List.mem_cons_of_mem _ hm, hy, heq ▸ he⟩
      · intro i2 y2 hm hy
        rcases List.mem_cons.1 hm with heq2 | hm2
        · simp at heq2
        · rcases h.2.1 i2 y2 hm2 hy with ⟨j, d, he, hd⟩
          exact ⟨j, d, heq ▸ he, hd⟩
      · intro j d hacc
        rcases h.2.2 j d hacc with ⟨j2, d2, he, hd⟩
        exact ⟨j2, d2, heq ▸ he, hd⟩
    | some y =>
      by_cases hy : y < my
      · cases acc with
        | none =>
          have h := ih (some (i, my - y))
          have heq : pickClosest my ((i, some y) :: l) none =
              pickClosest my l (some (i, my - y)) := by
            simp [pickClosest, hy]
          refine ⟨?_, ?_, ?_⟩
          · rcases h.1 with h1 | ⟨i2, y2, hm, hy2, he⟩
            · exact Or.inr ⟨i, y, List.mem_cons_self _ _, hy, heq ▸ h1⟩
            · exact Or.inr ⟨i2, y2, List.mem_cons_of_mem _ hm, hy2, heq ▸ he⟩
          · intro i2 y2 hm hy2
            rcases List.mem_cons.1 hm with heq2 | hm2
            · simp only [Prod.mk.injEq, Option.some.injEq] at heq2
              rcases h.2.2 i (my - y) rfl with ⟨j2, d2, he, hd⟩
              exact ⟨j2, d2, heq ▸ he, by rw [heq2.2]; exact hd⟩
            · rcases h.2.1 i2 y2 hm2 hy2 with ⟨j2, d2, he, hd⟩
              exact ⟨j2, d2, heq ▸ he, hd⟩
          · intro j d hacc; cases hacc
        | some q =>
          obtain ⟨j, dj⟩ := q
          by_cases hd : my - y < dj
          · have h := ih (some (i, my - y))
            have heq : pickClosest my ((i, some y) :: l) (some (j, dj)) =
                pickClosest my l (some (i, my - y)) := by
              simp [pickClosest, hy, hd]
            refine ⟨?_, ?_, ?_⟩
            · rcases h.1 with h1 | ⟨i2, y2, hm, hy2, he⟩
              · exact Or.inr ⟨i, y, List.mem_cons_self _ _, hy, heq ▸ h1⟩
              · exact Or.inr ⟨i2, y2, List.mem_cons_of_mem _ hm, hy2, heq ▸ he⟩
            · intro i2 y2 hm hy2
              rcases List.mem_cons.1 hm with heq2 | hm2
              · simp only [Prod.mk.injEq, Option.some.injEq] at heq2
                rcases h.2.2 i (my - y) rfl with ⟨j2, d2, he, hd2⟩
                exact ⟨j2, d2, heq ▸ he, by rw [heq2.2]; exact hd2⟩
              · rcases h.2.1 i2 y2 hm2 hy2 with ⟨j2, d2, he, hd2⟩
                exact ⟨j2, d2, heq ▸ he, hd2⟩
            · intro j0 d0 hacc
              simp only [Option.some.injEq, Prod.mk.injEq] at hacc
              rcases h.2.2 i (my - y) rfl with ⟨j2, d2, he, hd2⟩
              exact ⟨j2, d2, heq ▸ he, by rw [← hacc.2]; exact le_trans hd2 (le_of_lt hd)⟩
          · have h := ih (some (j, dj))
            have heq : pickClosest my ((i, some y) :: l) (some (j, dj)) =
                pickClosest my l (some (j, dj)) := by
              simp [pickClosest, hy, hd]
            refine ⟨?_, ?_, ?_⟩
            · rcases h.1 with h1 | ⟨i2, y2, hm, hy2, he⟩
              · exact Or.inl (heq ▸ h1)
              · exact Or.inr ⟨i2, y2, List.mem_cons_of_mem _ hm, hy2, heq ▸ he⟩
            · intro i2 y2 hm hy2
              rcases List.mem_cons.1 hm with heq2 | hm2
              · simp only [Prod.mk.injEq, Option.some.injEq] at heq2
                rcases h.2.2 j dj rfl with ⟨j2, d2, he, hd2⟩
                refine ⟨j2, d2, heq ▸ he, ?_⟩
                rw [heq2.2]
                exact le_trans hd2 (le_of_not_lt hd)
              · rcases h.2.1 i2 y2 hm2 hy2 with ⟨j2, d2, he, hd2⟩
                exact ⟨j2, d2, heq ▸ he, hd2⟩
            · intro j0 d0 hacc
              simp only [Option.some.injEq, Prod.mk.injEq] at hacc
              rcases h.2.2 j dj rfl with ⟨j2, d2, he, hd2⟩
              exact ⟨j2, d2, heq ▸ he, by rw [← hacc.2]; exact hd2⟩
      · have h := ih acc
        have heq : pickClosest my ((i, some y) :: l) acc = pickClosest my l acc := by
          simp [pickClosest, hy]
        refine ⟨?_, ?_, ?_⟩
        · rcases h.1 with h1 | ⟨i2, y2, hm, hy2, he⟩
          · exact Or.inl (heq ▸ h1)
          · exact Or.inr ⟨i2, y2, List.mem_cons_of_mem _ hm, hy2, heq ▸ he⟩
        · intro i2 y2 hm hy2
          rcases List.mem_cons.1 hm with heq2 | hm2
          · simp only [Prod.mk.injEq, Option.some.injEq] at heq2
            exact absurd (heq2.2 ▸ hy2) hy
          · rcases h.2.1 i2 y2 hm2 hy2 with ⟨j2, d2, he, hd⟩
            exact ⟨j2, d2, heq ▸ he, hd⟩
        · intro j d hacc
          rcases h.2.2 j d hacc with ⟨j2, d2, he, hd⟩
          exact ⟨j2, d2, heq ▸ he, hd⟩

/-- The clicked index returned by `closestAbove` is a located control
strictly above the marker at minimal distance among all such controls. -/
theorem closestAbove_sound (my : Int) (bs : List (Option Int)) (i : Nat) (d : Int)
    (h : closestAbove my bs = some (i, d)) :
    ∃ y, bs[i]? = some (some y) ∧ y < my ∧ d = my - y ∧
      ∀ (j : Nat) (y2 : Int), bs[j]? = some (some y2) → y2 < my → d ≤ my - y2 := by
  have hs := pickClosest_spec my (withIdx 0 bs) none
  rcases hs.1 with h1 | ⟨i2, y2, hm, hy2, he⟩
  · rw [closestAbove] at h; rw [h1] at h; cases h
  · rw [closestAbove] at h
    rw [he] at h
    simp only [Option.some.injEq, Prod.mk.injEq] at h
    obtain ⟨rfl, rfl⟩ := h
    obtain ⟨m, hm1, hm2⟩ := (withIdx_mem bs 0 i2 (some y2)).1 hm
    refine ⟨y2, by rw [hm1, Nat.zero_add]; exact hm2, hy2, rfl, ?_⟩
    intro j y3 hj hy3
    have hmem : (j, some y3) ∈ withIdx 0 bs := (withIdx_mem bs 0 j (some y3)).2 ⟨j, by omega, hj⟩
    rcases hs.2.1 j y3 hmem hy3 with ⟨j2, d2, he2, hd2⟩
    rw [he] at he2
    simp only [Option.some.injEq, Prod.mk.injEq] at he2
    rw [← he2.2] at hd2
    exact hd2

/-- When some located control is strictly above the marker, the loop
finds one. -/
theorem closestAbove_total (my : Int) (bs : List (Option Int)) (i0 : Nat) (y0 : Int)
    (h : bs[i0]? = some (some y0)) (hy : y0 < my) :
    ∃ i d, closestAbove my bs = some (i, d) := by
  have hmem : (i0, some y0) ∈ withIdx 0 bs := (withIdx_mem bs 0 i0 (some y0)).2 ⟨i0, by omega, h⟩
  rcases (pickClosest_spec my (withIdx 0 bs) none).2.1 i0 y0 hmem hy with ⟨j, d, he, _⟩
  exact ⟨j, d, he⟩

/-- C1 (amended): when the marker is found with a bounding position and
at least one located split-point control lies strictly above it, the
clicked control is one strictly above the marker at the smallest
distance among all strictly-above controls.  (Without such a control,
the code falls through to its fallback and clicks the first located
control, which can lie at or below the marker — see the
counterexample.) -/
theorem c1_nearest_above_clicked (env : Env) (my : Int) (i0 : Nat) (y0 : Int)
    (hshot : shotFails env "debug_paid_line_selection" = false)
    (hm : env.marker = some (some my))
    (hwit : env.lineButtons[i0]? = some (some y0))
    (hy0 : y0 < my) :
    ∃ i y, select_paid_line_position env =
        Except.ok [Ev.screenshot "debug_paid_line_selection", Ev.clickLineButton i] ∧
      env.lineButtons[i]? = some (some y) ∧ y < my ∧
      ∀ (j : Nat) (y2 : Int), env.lineButtons[j]? = some (some y2) → y2 < my →
        my - y ≤ my - y2 := by
  have hne : env.lineButtons.isEmpty = false := by
    cases h' : env.lineButtons with
    | nil => rw [h'] at hwit; simp at hwit
    | cons x xs => rfl
  obtain ⟨i, d, hc⟩ := closestAbove_total my env.lineButtons i0 y0 hwit hy0
  obtain ⟨y, hget, hy, hd, hmin⟩ := closestAbove_sound my env.lineButtons i d hc
  refine ⟨i, y, ?_, hget, hy, ?_⟩
  · simp [select_paid_line_position, hshot, hne, hm, hc]
  · intro j y2 hj hy2
    rw [← hd]
    exact hmin j y2 hj hy2

/-- A concrete page for the C1 counterexample: the marker sits at
vertical position 10 and the single located split-point control at 50,
i.e. below the marker. -/
def c1Env : Env :=
  { failingShots := [], emailFieldOk := true, passwordFieldOk := true,
    loginButtonOk := true, loginNavOk := true, redirectedToLogin := false,
    titleFound := true, paidAreaButtonVisible := true,
    publishButtonVisible := true, lineButtons := [some 50],
    marker := some (some 10) }

/-- C1 counterexample: the marker is found with bounding position 10,
yet the clicked control is the one at position 50, which is *below* the
marker — refuting the claim that a control at or below the marker's
position is never the one clicked. -/
theorem c1_counterexample :
    select_paid_line_position c1Env =
      Except.ok [Ev.screenshot "debug_paid_line_selection", Ev.clickLineButton 0] ∧
    c1Env.marker = some (some 10) ∧
    c1Env.lineButtons[0]? = some (some 50) ∧
    ¬ (50 : Int) < 10 :=
  ⟨rfl, rfl, rfl, by decide⟩

/-- Witness for the amended C1 at a concrete page: buttons at 10, 40 and
80 with the marker at 50 — the clicked control is the one at 40. -/
theorem c1_witness :
    ∃ i y, select_paid_line_position
        { failingShots := [], emailFieldOk := true, passwordFieldOk := true,
          loginButtonOk := true, loginNavOk := true, redirectedToLogin := false,
          titleFound := true, paidAreaButtonVisible := true,
          publishButtonVisible := true,
          lineButtons := [some 10, some 40, some 80],
          marker := some (some 50) } =
        Except.ok [Ev.screenshot "debug_paid_line_selection", Ev.clickLineButton i] ∧
      ([some 10, some 40, some 80] : List (Option Int))[i]? = some (some y) ∧
      y < 50 ∧
      ∀ (j : Nat) (y2 : Int),
        ([some 10, some 40, some 80] : List (Option Int))[j]? = some (some y2) →
        y2 < 50 → 50 - y ≤ 50 - y2 :=
  c1_nearest_above_clicked
    { failingShots := [], emailFieldOk := true, passwordFieldOk := true,
      loginButtonOk := true, loginNavOk := true, redirectedToLogin := false,
      titleFound := true, paidAreaButtonVisible := true,
      publishButtonVisible := true,
      lineButtons := [some 10, some 40, some 80],
      marker := some (some 50) }
    50 0 10 rfl rfl rfl (by decide)

/-! ## Claim C4 -/

/-- C4: the sanitizer is not idempotent.  On `"x\n---\n---\ny"` one pass
keeps the second horizontal-rule line (the `re.sub(r'\n---+\n', ...)`
scan consumes the trailing newline of the first rule, so the second rule
has no leading newline left to match), and a second pass then removes
it: `sanitize(sanitize(x)) ≠ sanitize(x)`. -/
theorem c4_sanitizer_not_idempotent :
    clean_content_for_note "x\n---\n---\ny" = "x\n\n---\ny" ∧
    clean_content_for_note (clean_content_for_note "x\n---\n---\ny") = "x\n\ny" ∧
    clean_content_for_note (clean_content_for_note "x\n---\n---\ny") ≠
      clean_content_for_note "x\n---\n---\ny" :=
  ⟨rfl, rfl, by decide⟩

/-! ## Claim C5 -/

/-- A row of the table-conversion pass never begins with a pipe. -/
theorem processRow_startsPipe (l b : List Char) (h : processRow l = some b) :
    startsPipe b = false := by
  unfold processRow at h
  split at h
  · cases h
  · split at h
    · cases h
    · injection h with h
      rw [← h]; rfl

/-- The bullet rewrite either leaves the line unchanged or produces a
line that starts with whitespace or a dash, never with a pipe. -/
theorem starRewrite_case (l : List Char) :
    starRewrite l = l ∨ startsPipe (starRewrite l) = false := by
  unfold starRewrite
  split
  · right
    cases hw : l.takeWhile isPySpace with
    | nil => rfl
    | cons c ws2 =>
      have hcmem : c ∈ l.takeWhile isPySpace := by rw [hw]; exact List.mem_cons_self _ _
      have hcsp : isPySpace c = true := List.mem_takeWhile_imp hcmem
      show (c == '|') = false
      by_cases hcp : c = '|'
      · rw [hcp] at hcsp; exact absurd hcsp (by decide)
      · exact beq_eq_false_iff_ne.2 hcp
  · left; rfl

/-- C5 (amended): outside fenced code, every line that both starts and
ends with a pipe is dropped (divider rows and empty-first-cell rows) or
converted to a bullet line, so when the input contains no fence line no
output line of the table pass both starts and ends with a pipe; on the
spec's scenario the sanitizer output is exactly `- a: b\n- 1: 2` (the
divider row is dropped and the bullet `- 1: 2` is produced).  A line
that starts with a pipe but does not end with one — or any pipe line
inside a fenced block — passes through unchanged, so the original
claim's stronger conclusion fails (see the counterexample). -/
theorem c5_tables_become_bullets :
    (∀ (ls : List (List Char)), (∀ l ∈ ls, isFenceLine l = false) →
      ∀ l2 ∈ tableLoop false ls, (startsPipe l2 && endsPipe l2) = false) ∧
    clean_content_for_note "| a | b |\n|---|---|\n| 1 | 2 |" = "- a: b\n- 1: 2" := by
  refine ⟨?_, rfl⟩
  intro ls
  induction ls with
  | nil => intro _ l2 hl2; simp [tableLoop] at hl2
  | cons l ls ih =>
    intro hf l2 hl2
    have hfl : isFenceLine l = false := hf l (List.mem_cons_self _ _)
    have hfr : ∀ l3 ∈ ls, isFenceLine l3 = false :=
      fun l3 h3 => hf l3 (List.mem_cons_of_mem _ h3)
    by_cases hdiv : isDividerLine l
    · simp only [tableLoop, hfl, hdiv] at hl2
      simp only [Bool.false_eq_true, if_false, if_true] at hl2
      exact ih hfr l2 hl2
    · by_cases hrow : (startsPipe l && endsPipe l) = true
      · cases hpr : processRow l with
        | none =>
          simp only [tableLoop, hfl, hdiv, hrow, hpr, Bool.false_eq_true,
            if_false, if_true] at hl2
          exact ih hfr l2 hl2
        | some b =>
          simp only [tableLoop, hfl, hdiv, hrow, hpr, Bool.false_eq_true,
            if_false, if_true, List.mem_cons] at hl2
          rcases hl2 with rfl | hl2
          · rw [processRow_startsPipe l l2 hpr]; rfl
          · exact ih hfr l2 hl2
      · have hrow2 : (startsPipe l && endsPipe l) = false := by
          cases hb : (startsPipe l && endsPipe l)
          · rfl
          · exact absurd hb hrow
        simp only [tableLoop, hfl, hdiv, hrow2, Bool.false_eq_true,
          if_false, List.mem_cons] at hl2
        rcases hl2 with rfl | hl2
        · rcases starRewrite_case l with hsr | hsr
          · rw [hsr]; exact hrow2
          · rw [hsr]; rfl
        · exact ih hfr l2 hl2

/-- The table block of the spec scenario. -/
def c5TableBlock : String := "| a | b |\n|---|---|\n| 1 | 2 |"

/-- The C5 counterexample input: the scenario's table block followed by a
stray line that starts with a pipe but does not end with one. -/
def c5Input : String := "| a | b |\n|---|---|\n| 1 | 2 |\n| x"

/-- C5 counterexample: an input that contains a markdown table block but
whose sanitized output still has a line starting with `|` (the stray
`| x` line is not a table row, so it passes through), refuting the
universally quantified part of the claim. -/
theorem c5_counterexample :
    c5Input = c5TableBlock ++ "\n| x" ∧
    clean_content_for_note c5Input = "- a: b\n- 1: 2\n| x" ∧
    (splitLines (clean_content_for_note c5Input).data).any startsPipe = true :=
  ⟨rfl, rfl, rfl⟩

/-- Witness for the amended C5 on the scenario's table lines plus the
stray line. -/
theorem c5_witness :
    ∀ l2 ∈ tableLoop false
        ["| a | b |".data, "|---|---|".data, "| 1 | 2 |".data, "| x".data],
      (startsPipe l2 && endsPipe l2) = false :=
  c5_tables_become_bullets.1
    ["| a | b |".data, "|---|---|".data, "| 1 | 2 |".data, "| x".data]
    (by decide)

/-! ## Claim C6 -/

/-- The C6 counterexample input: a fenced code block containing an HTML
tag. -/
def c6Input : String := "```\n<b>x</b>\n```"

/-- C6 counterexample: the line `<b>x</b>` lies strictly between a pair
of fence lines, yet it does not appear in the sanitized output — the
HTML-tag strip runs on the whole text before the fence-aware line loop,
so fenced contents are not preserved verbatim. -/
theorem c6_counterexample :
    splitLines c6Input.data = ["```".data, "<b>x</b>".data, "```".data] ∧
    clean_content_for_note c6Input = "```\nx\n```" ∧
    "<b>x</b>".data ∉ splitLines (clean_content_for_note c6Input).data :=
  ⟨rfl, rfl, by decide⟩

/-- C6 (amended): the fence-aware line loop itself preserves the lines
inside a fenced block verbatim and rewrites fence lines to a bare fence
(dropping the language tag); table conversion and bullet rewriting only
apply outside fences.  The character-level strips (HTML tags, links,
strikethrough) run before this loop and the joined-text passes
(horizontal rules, blank lines, heading demotion) run after it, and
those do apply inside fenced blocks, which is what the counterexample
exhibits. -/
theorem c6_line_loop_preserves_fenced :
    (∀ (l : List Char) (ls : List (List Char)), isFenceLine l = false →
      tableLoop true (l :: ls) = l :: tableLoop true ls) ∧
    (∀ (b : Bool) (l : List Char) (ls : List (List Char)), isFenceLine l = true →
      tableLoop b (l :: ls) = fenceChars :: tableLoop (!b) ls) := by
  constructor
  · intro l ls h; simp [tableLoop, h]
  · intro b l ls h; simp [tableLoop, h]

/-- Witness for the amended C6: a pipe line inside a code block passes
through the loop unchanged. -/
theorem c6_witness :
    tableLoop true ["| a |".data] = "| a |".data :: tableLoop true [] :=
  c6_line_loop_preserves_fenced.1 "| a |".data [] (by decide)

/-! ## Claim C8 -/

/-- A page environment in which every step succeeds. -/
def pubEnvOk : Env :=
  { failingShots := [], emailFieldOk := true, passwordFieldOk := true,
    loginButtonOk := true, loginNavOk := true, redirectedToLogin := false,
    titleFound := true, paidAreaButtonVisible := true,
    publishButtonVisible := true, lineButtons := [some 10], marker := none }

/-- The same environment, except that writing the login-page debug
screenshot fails. -/
def pubEnvShotFail : Env := { pubEnvOk with failingShots := ["debug_login_page"] }

def pubArticle : Article :=
  { title := "T", content := "Hi.", tags := [], thumbnail_prompt := "" }

/-- C8 counterexample: with all steps working the attempt succeeds, but
making only the `debug_login_page` screenshot write fail flips the
outcome of the very same attempt to failure — the screenshot error is
raised out of `_login` (which has no handler around it) into the
top-level handler of `publish`, which returns `False` before any later
stage runs.  This refutes the claim that a snapshot failure is silently
ignored and never changes the outcome. -/
theorem c8_counterexample :
    (∃ tr, publish 0 false pubEnvOk pubArticle = Except.ok (true, tr)) ∧
    publish 0 false pubEnvShotFail pubArticle =
      Except.ok (false, [Ev.screenshot "error_screenshot"]) := by
  constructor
  · exact ⟨_, rfl⟩
  · rfl

/-- C8 (amended): screenshot failures are not uniformly ignored — a
failing login-page screenshot always aborts the attempt: the exception
unwinds out of `_login` (which has no handler around that call) to
`publish`'s top-level handler, which takes `error_screenshot.png`
(assumed writable here) and returns `False`; no later stage of the
attempt runs, though the `publish` call itself still returns rather
than raising.  Some screenshot failures are swallowed with the outcome
unchanged — for example those inside `_select_paid_line_position`'s own
`try` (modelled here) or inside the guarded `_upload_thumbnail` call —
but not the ones this theorem covers. -/
theorem c8_screenshot_failure_aborts (price : Int) (thumb : Bool)
    (env : Env) (a : Article)
    (h1 : shotFails env "debug_login_page" = true)
    (h2 : shotFails env "error_screenshot" = false) :
    publish price thumb env a =
      Except.ok (false, [Ev.screenshot "error_screenshot"]) := by
  have hl : login env = Except.error () := by
    unfold login; rw [h1]; rfl
  unfold publish
  rw [hl, h2]
  rfl

/-- Witness for the amended C8 at the concrete failing environment. -/
theorem c8_witness :
    publish 300 true pubEnvShotFail pubArticle =
      Except.ok (false, [Ev.screenshot "error_screenshot"]) :=
  c8_screenshot_failure_aborts 300 true pubEnvShotFail pubArticle rfl rfl

end NoteAuto
